import Mathlib

/-!
Verification of the TAD peer-to-peer chat mesh (gossip engine, channel
subscription policy, E2EE invite flow and the persistence layer) against its
natural-language specification.  The Python sources are shallowly embedded:
dictionaries become association lists over a Python-style value type, the
mutable gossip / node state is passed explicitly, and fallible paths (raised
exceptions, caught sqlite errors) return `Option` / fall back to an unchanged
state exactly where the source catches them.
-/

namespace TAD

/-- Python-style values occurring in message payload dictionaries:
strings, ints, bools, nested dictionaries and `None`. -/
inductive Val where
  | vStr  : String → Val
  | vInt  : Int → Val
  | vBool : Bool → Val
  | vDict : List (String × Val) → Val
  | vNone : Val

/-- A Python dictionary with string keys, kept in insertion order. -/
abbrev Dict := List (String × Val)

/-- Python `d.get(k)`: the stored value, or `None` when the key is absent. -/
def dget (d : Dict) (k : String) : Val :=
  match d with
  | [] => Val.vNone
  | (k', v) :: rest => if k' == k then v else dget rest k

/-- Python `d.get(k, default)`. -/
def dgetD (d : Dict) (k : String) (dflt : Val) : Val :=
  match d with
  | [] => dflt
  | (k', v) :: rest => if k' == k then v else dgetD rest k dflt

/-- Python `d[k] = v`: replace in place when the key exists (CPython keeps the
original position), otherwise append. -/
def dset (d : Dict) (k : String) (v : Val) : Dict :=
  match d with
  | [] => [(k, v)]
  | (k', v') :: rest => if k' == k then (k, v) :: rest else (k', v') :: dset rest k v

/-- Python truthiness of a value as used in `if not msg_type` and
`if channel_id and ...`. -/
def truthy : Val → Bool
  | Val.vStr s => !(s == "")
  | Val.vInt n => !(n == 0)
  | Val.vBool b => b
  | Val.vDict d => !d.isEmpty
  | Val.vNone => false

/-- Python `v in s` for a set of strings: only a string value can be a member. -/
def valInStrSet (v : Val) (s : List String) : Bool :=
  match v with
  | Val.vStr c => s.contains c
  | _ => false

/-- Python `v == lit` for a string literal `lit`. -/
def isStrVal (v : Val) (lit : String) : Bool :=
  match v with
  | Val.vStr s => s == lit
  | _ => false

/-- A signed gossip message envelope as produced by
`GossipProtocol.sign_message` / read off the wire: the four mandatory keys
plus the optional envelope-level `ttl` key added by `broadcast_message`. -/
structure Envelope where
  msg_id : String
  sender_id : String
  signature : String
  payload : Dict
  ttl : Option Int

/-! ## Gossip protocol (src/tad/network/gossip.py) -/

/-- `GossipProtocol.INITIAL_TTL`. -/
def INITIAL_TTL : Int := 3

/-- `GossipProtocol.SEEN_MESSAGES_MAX_SIZE`: the `maxlen` of the
`seen_messages` deque. -/
def SEEN_MESSAGES_MAX_SIZE : Nat := 1000

/-- `deque.append` on a deque with `maxlen = maxSize`: append on the right,
evicting from the left whenever the bound is exceeded. -/
def seenAppend (seen : List String) (maxSize : Nat) (x : String) : List String :=
  let s := seen ++ [x]
  if maxSize < s.length then s.drop (s.length - maxSize) else s

/-- `payload.get("ttl", 0)` followed by the integer subtraction in
`forward_message`: an int (or bool, a subclass of int in Python) yields its
value, absence yields the default 0, and any other type raises `TypeError`
at `ttl - 1` (modelled as `none`). -/
def payloadTtl (p : Dict) : Option Int :=
  match dgetD p "ttl" (Val.vInt 0) with
  | Val.vInt n => some n
  | Val.vBool b => some (cond b 1 0)
  | _ => none

/-- `GossipProtocol.forward_message`: reads `ttl` from the **payload**
(`payload.get("ttl", 0)`), decrements it, returns no sends when the result is
`<= 0`, and otherwise writes the decremented ttl **into the copied payload**
(`forwarded_payload["ttl"] = new_ttl`) before sending the copy to every
connected peer.  The envelope-level `ttl` key, when present, is copied
unchanged by `message.copy()`.  `none` models the `TypeError` raised when the
payload carries a non-integer `ttl`. -/
def forward_message (m : Envelope) (peers : List String) : Option (List (String × Envelope)) :=
  match payloadTtl m.payload with
  | none => none
  | some ttl =>
    let new_ttl := ttl - 1
    if new_ttl ≤ 0 then some []
    else
      let fmsg : Envelope := { m with payload := dset m.payload "ttl" (Val.vInt new_ttl) }
      some (peers.map (fun a => (a, fmsg)))

/-- Outcome of `GossipProtocol._handle_chat_message`: the seen cache after the
call, whether the `on_message_received` callback was invoked (its own
exceptions are caught by the surrounding `try`), and the (peer, envelope)
sends issued by forwarding. -/
structure ChatResult where
  seen : List String
  callbackInvoked : Bool
  forwards : List (String × Envelope)

/-- `GossipProtocol._handle_chat_message`: drop duplicates by `msg_id`,
otherwise append to the seen deque, invoke the callback, and forward when the
**envelope-level** `message.get("ttl", 0)` is positive. -/
def handle_chat_message (seen : List String) (m : Envelope) (peers : List String) :
    Option ChatResult :=
  if seen.contains m.msg_id then some ⟨seen, false, []⟩
  else
    let seen2 := seenAppend seen SEEN_MESSAGES_MAX_SIZE m.msg_id
    if 0 < m.ttl.getD 0 then
      (forward_message m peers).map (fun fs => ⟨seen2, true, fs⟩)
    else some ⟨seen2, true, []⟩

/-- Disposition of `GossipProtocol.handle_message` for one frame. -/
inductive Dispo where
  | dropBadSig
  | dropMissingTypeOrId
  | dropNotSubscribed
  | chat (r : ChatResult)
  | hello
  | unknownType

/-- `GossipProtocol.handle_message` after JSON parsing, with the signature
check outcome passed in as `verified`: extract `type` / `channel_id` from the
payload, reject missing type or msg_id, apply the channel subscription filter
(`if channel_id and channel_id not in self.subscribed_channels`) and dispatch
by message type.  `none` models an exception escaping the dispatched
handler. -/
def handle_message (subscribed : List String) (seen : List String)
    (verified : Bool) (m : Envelope) (peers : List String) : Option Dispo :=
  if !verified then some Dispo.dropBadSig
  else
    let msg_type := dget m.payload "type"
    let channel_id := dget m.payload "channel_id"
    if !truthy msg_type || m.msg_id == "" then some Dispo.dropMissingTypeOrId
    else if truthy channel_id && !valInStrSet channel_id subscribed then
      some Dispo.dropNotSubscribed
    else if isStrVal msg_type "chat_message" then
      (handle_chat_message seen m peers).map Dispo.chat
    else if isStrVal msg_type "HELLO" then some Dispo.hello
    else some Dispo.unknownType

/-! ## Channel subscription management (src/tad/node.py, src/tad/main.py) -/

/-- `TADNode.subscribed_channels` at construction time. -/
def initial_subscribed : List String := ["#general"]

/-- `TADNode.join_channel`: add the channel to the shared subscription set. -/
def join_channel (subscribed : List String) (c : String) : List String :=
  if subscribed.contains c then subscribed else subscribed ++ [c]

/-- `TADNode.leave_channel`: `set.discard` on the shared subscription set;
there is no special case for any channel. -/
def leave_channel (subscribed : List String) (c : String) : List String :=
  if subscribed.contains c then subscribed.erase c else subscribed

/-- `TADTUIApp._cmd_leave` (src/tad/main.py), restricted to its effect on the
node subscription set: normalise the leading `#`, refuse `#general`, and
otherwise delegate to `TADNode.leave_channel`. -/
def cmd_leave (subscribed : List String) (arg : String) : List String :=
  let channel_id := if arg.startsWith "#" then arg else "#" ++ arg
  if channel_id == "#general" then subscribed
  else leave_channel subscribed channel_id

/-! ## Persistence layer (src/tad/persistence/database.py) -/

/-- A row of the `messages` table as created by
`DatabaseManager._create_tables`: columns `msg_id`, `channel_id`,
`sender_id`, `timestamp`, `content`, `signature`, `is_encrypted` (BOOLEAN
DEFAULT 0).  The table has **no** `nonce` column, and neither
`_create_tables` nor `_migrate_schema` ever adds one; the `created_at`
column (DEFAULT CURRENT_TIMESTAMP, never read back by the export or history
queries) is omitted from the model. -/
structure MessageRow where
  msg_id : String
  channel_id : Val
  sender_id : String
  timestamp : Val
  content : Val
  signature : String
  is_encrypted : Bool

/-- Whether a payload value can be bound as a non-NULL sqlite parameter for a
NOT NULL column: strings, ints and bools bind; `None` violates NOT NULL and a
dict is not a supported parameter type, so either raises `sqlite3.Error`,
which `store_message` catches (leaving the table unchanged). -/
def bindable : Val → Bool
  | Val.vStr _ => true
  | Val.vInt _ => true
  | Val.vBool _ => true
  | _ => false

/-- `DatabaseManager.store_message`: pull `channel_id` (default `#general`),
`content` (default `""`) and `timestamp` (default `""`) out of the payload,
then `INSERT OR IGNORE` a row keyed by `msg_id`.  Only the six columns
`msg_id, channel_id, sender_id, timestamp, content, signature` appear in the
INSERT, so `is_encrypted` always takes its schema default 0 and no nonce is
stored.  On any `sqlite3.Error` the handler logs and returns with the table
unchanged.  The `store_channel(channel_id)` upsert into the separate
`channels` relation is not modelled (no claim reads that relation). -/
def store_message (db : List MessageRow) (m : Envelope) : List MessageRow :=
  let channel_id := dgetD m.payload "channel_id" (Val.vStr "#general")
  let content := dgetD m.payload "content" (Val.vStr "")
  let timestamp := dgetD m.payload "timestamp" (Val.vStr "")
  if bindable channel_id && bindable content && bindable timestamp then
    if db.any (fun r => r.msg_id == m.msg_id) then db
    else db ++ [⟨m.msg_id, channel_id, m.sender_id, timestamp, content, m.signature, false⟩]
  else db

/-- Columns of the `messages` table actually created by `_create_tables`
together with the one added by `_migrate_schema` when missing. -/
def messagesTableColumns : List String :=
  ["msg_id", "channel_id", "sender_id", "timestamp", "content", "signature",
   "created_at", "is_encrypted"]

/-- Columns named in the SELECT of `export_messages_to_json`. -/
def exportSelectColumns : List String :=
  ["msg_id", "channel_id", "sender_id", "content", "timestamp", "signature",
   "is_encrypted", "nonce"]

/-- One record produced by `export_messages_to_json`. -/
structure ExportRecord where
  msg_id : String
  channel_id : Val
  sender_id : String
  content : Val
  timestamp : Val
  signature : String
  is_encrypted : Bool
  nonce : Val

/-- `DatabaseManager.export_messages_to_json` (whole-store variant): the
SELECT names a `nonce` column, so when that column is missing from the
`messages` table sqlite raises `OperationalError` (no such column), the
`except sqlite3.Error` branch runs, and the function returns `[]`. -/
def export_messages_to_json (db : List MessageRow) : List ExportRecord :=
  if exportSelectColumns.all (fun c => messagesTableColumns.contains c) then
    db.map (fun r =>
      ⟨r.msg_id, r.channel_id, r.sender_id, r.content, r.timestamp, r.signature,
       r.is_encrypted, Val.vNone⟩)
  else []

/-- `DatabaseManager.import_messages_from_json`: rebuild an envelope around
each record (payload keys `content`, `channel_id`, `timestamp`,
`is_encrypted`, `nonce` in that order) and feed it to `store_message`.  The
`store_channel` call for a previously unseen channel touches only the
`channels` relation and is not modelled. -/
def import_messages_from_json (db : List MessageRow) (msgs : List ExportRecord) :
    List MessageRow :=
  msgs.foldl (fun acc msg =>
    store_message acc
      { msg_id := msg.msg_id
        sender_id := msg.sender_id
        signature := msg.signature
        payload :=
          [("content", msg.content), ("channel_id", msg.channel_id),
           ("timestamp", msg.timestamp), ("is_encrypted", Val.vBool msg.is_encrypted),
           ("nonce", msg.nonce)]
        ttl := none }) db

/-- Projection of a stored message row onto the eight spec columns
`(msg_id, channel_id, sender_id, timestamp, content, signature,
is_encrypted, nonce)`; the schema has no nonce column, so the nonce
component of the projection is NULL for every row. -/
def rowProjection (r : MessageRow) :
    String × Val × String × Val × Val × String × Bool × Val :=
  (r.msg_id, r.channel_id, r.sender_id, r.timestamp, r.content, r.signature,
   r.is_encrypted, Val.vNone)

/-! ## Node orchestrator (src/tad/node.py) and identity (src/tad/identity.py) -/

/-- `Identity.__init__` assigns exactly these four attributes; the class
defines no others (in particular no `encryption_private_key`). -/
structure Identity where
  username : String
  signing_key : String
  verify_key : String
  verify_key_hex : String

/-- Python attribute access `identity.<a>`: the stored value for the four
attributes set by `Identity.__init__`, and `AttributeError` (modelled as
`none`) for every other name. -/
def identityAttr (i : Identity) (a : String) : Option String :=
  if a == "username" then some i.username
  else if a == "signing_key" then some i.signing_key
  else if a == "verify_key" then some i.verify_key
  else if a == "verify_key_hex" then some i.verify_key_hex
  else none

/-- Row of the `channels` relation as read by `get_channel_info`. -/
structure ChannelInfo where
  name : String
  ctype : String
  owner_node_id : Option String

/-- Association-list lookup used for the channels table and the in-memory
channel key dictionary. -/
def alookup {α : Type} (l : List (String × α)) (k : String) : Option α :=
  match l with
  | [] => none
  | (k', v) :: rest => if k' == k then some v else alookup rest k

/-- The node state touched by the invite-acceptance path: the in-memory
channel key table (`E2EEManager.channel_keys`), the persisted `channels` and
`channel_members` relations, and the shared subscription set. -/
structure NodeState where
  channel_keys : List (String × String)
  channels : List (String × ChannelInfo)
  members : List (String × String) -- (channel_id, node_id) pairs with role member
  subscribed : List String

/-- `TADNode._handle_invite`: the first statement evaluates
`self.identity.encryption_private_key`, an attribute `Identity.__init__`
never defines, so an `AttributeError` is raised before any key is stored or
any record written (`none`).  The remainder of the function (sbOpen the
channel key with the sealed-box `sbOpen`, store it, persist the channel and
the membership, subscribe) is translated for completeness but is unreachable
for every identity the class can construct. -/
def handle_invite (ident : Identity) (selfId : String)
    (sbOpen : String → String → Option String)
    (st : NodeState) (inv : Dict) : Option NodeState :=
  match identityAttr ident "encryption_private_key" with
  | none => none
  | some sk =>
    let channel_id := dget inv "channel_id"
    let encrypted_key := dget inv "encrypted_key"
    match channel_id, encrypted_key with
    | Val.vStr cid, Val.vStr ekey =>
      match sbOpen sk ekey with
      | none => some st
      | some key =>
        let cname := match dget inv "channel_name" with | Val.vStr s => s | _ => cid
        let ctype := match dget inv "channel_type" with | Val.vStr s => s | _ => "public"
        some { st with
          channel_keys := (cid, key) :: st.channel_keys
          channels := (cid, ⟨cname, ctype, none⟩) :: st.channels
          members := (cid, selfId) :: st.members
          subscribed := join_channel st.subscribed cid }
    | _, _ => some st

/-- The sealed-box wrap `E2EEManager.encrypt_key_for_recipient`, represented
by the pair of its determining inputs (recipient public key, channel key);
the claims about the invite path never inspect the ciphertext itself. -/
structure WrappedKey where
  recipient_pub : String
  channel_key : String

/-- The INVITE payload built by `TADNode.invite_peer_to_channel`. -/
structure InviteMsg where
  channel_id : String
  channel_name : String
  channel_type : String
  target_node_id : String
  encrypted_key : WrappedKey

/-- `TADNode.invite_peer_to_channel`: look the channel up; refuse (return
before wrapping any key or broadcasting anything) unless the stored
`owner_node_id` equals this node; refuse likewise when the channel key is
missing; otherwise wrap the key for the target and broadcast the INVITE.
The function performs no state writes of its own — its only effect is the
final `broadcast_message`, so `none` means nothing was emitted and the node
state is untouched. -/
def invite_peer_to_channel (channels : List (String × ChannelInfo))
    (channel_keys : List (String × String)) (selfId : String)
    (channel_id target_id target_pub : String) : Option InviteMsg :=
  match alookup channels channel_id with
  | none => none
  | some info =>
    if info.owner_node_id == some selfId then
      match alookup channel_keys channel_id with
      | none => none
      | some key =>
        some ⟨channel_id, info.name, info.ctype, target_id, ⟨target_pub, key⟩⟩
    else none

/-- `E2EEManager.has_channel_key(channel_id)` where `channel_id` is whatever
`payload.get("channel_id")` returned: a dictionary membership test, false for
any non-string value (including `None`). -/
def keyFor (channel_keys : List (String × String)) (channel_id : Val) : Option String :=
  match channel_id with
  | Val.vStr c => alookup channel_keys c
  | _ => none

/-- `DatabaseManager.get_channel_info(channel_id)` on a `Val` parameter:
a parameterized SELECT, matching only string channel ids. -/
def channelInfoFor (channels : List (String × ChannelInfo)) (channel_id : Val) :
    Option ChannelInfo :=
  match channel_id with
  | Val.vStr c => alookup channels c
  | _ => none

/-- Result of a completed run of `TADNode._on_gossip_message_received`:
node state, messages table, and the payload handed to the UI callback
(`none` when no callback was scheduled). -/
structure GossipCbResult where
  st : NodeState
  db : List MessageRow
  uiPayload : Option Dict

/-- The non-INVITE remainder of `TADNode._on_gossip_message_received`.
When the node holds a key for the channel of the payload, the content is
decrypted (`decrypt key content nonce`, where `decrypt` wraps
`E2EEManager.decrypt_message`, a total function returning `None` on any
failure); on decryption failure the message is dropped.  On success the code
runs `callback_message = message.copy()` — a **shallow** copy, so
`callback_message["payload"]` is the very payload dictionary of `message` —
and then assigns `callback_message["payload"]["content"] = decrypted` and
`["is_encrypted"] = True`, thereby mutating the payload of the original
message before `store_message(message)` persists it.  A private channel
without a key drops the message; otherwise the message is stored as-is and
the raw payload goes to the callback. -/
def on_gossip_rest (decrypt : String → Val → Val → Option String)
    (st : NodeState) (db : List MessageRow) (m : Envelope) : GossipCbResult :=
  let content := dget m.payload "content"
  let channel_id := dget m.payload "channel_id"
  match keyFor st.channel_keys channel_id with
  | some key =>
    match decrypt key content (dget m.payload "nonce") with
    | none => ⟨st, db, none⟩
    | some decrypted =>
      let mutated := dset (dset m.payload "content" (Val.vStr decrypted))
        "is_encrypted" (Val.vBool true)
      let m2 : Envelope := { m with payload := mutated }
      ⟨st, store_message db m2, some mutated⟩
  | none =>
    match channelInfoFor st.channels channel_id with
    | some info =>
      if info.ctype == "private" then ⟨st, db, none⟩
      else ⟨st, store_message db m, some m.payload⟩
    | none => ⟨st, store_message db m, some m.payload⟩

/-- `TADNode._on_gossip_message_received`: detect an INVITE (a dict-valued
`content` whose `type` is `"INVITE"`); when it is addressed to this node run
`_handle_invite`, whose `AttributeError` propagates out of the callback
(`none`, swallowed by the `try` around `on_message_received` in
`GossipProtocol._handle_chat_message`); INVITEs for others are neither
stored nor surfaced.  Everything else goes through `on_gossip_rest`. -/
def on_gossip_message_received (decrypt : String → Val → Val → Option String)
    (sbOpen : String → String → Option String) (ident : Identity) (selfId : String)
    (st : NodeState) (db : List MessageRow) (m : Envelope) : Option GossipCbResult :=
  match dget m.payload "content" with
  | Val.vDict c =>
    if isStrVal (dget c "type") "INVITE" then
      if isStrVal (dget c "target_node_id") selfId then
        match handle_invite ident selfId sbOpen st c with
        | none => none
        | some st2 => some ⟨st2, db, none⟩
      else some ⟨st, db, none⟩
    else some (on_gossip_rest decrypt st db m)
  | _ => some (on_gossip_rest decrypt st db m)

/-! ## Helper lemmas -/

theorem seenAppend_length_le (s : List String) (maxSize : Nat) (x : String)
    (h : s.length ≤ maxSize) : (seenAppend s maxSize x).length ≤ maxSize := by
  simp only [seenAppend]
  split
  · rename_i hlt
    simp only [List.length_drop]
    omega
  · rename_i hge
    simp only [not_lt] at hge
    exact hge

theorem seen_foldl_length_le (xs : List String) (s : List String) (maxSize : Nat)
    (h : s.length ≤ maxSize) :
    (xs.foldl (fun a x => seenAppend a maxSize x) s).length ≤ maxSize := by
  induction xs generalizing s with
  | nil => simpa using h
  | cons y ys ih => exact ih _ (seenAppend_length_le _ _ _ h)

theorem seenAppend_evict (s : List String) (maxSize : Nat) (x : String)
    (hpos : 0 < maxSize) (h : s.length = maxSize) :
    seenAppend s maxSize x = s.drop 1 ++ [x] := by
  have hlt : maxSize < (s ++ [x]).length := by simp [h]
  have h1 : (s ++ [x]).length - maxSize = 1 := by simp [h]
  simp only [seenAppend, if_pos hlt, h1]
  exact List.drop_append_of_le_length (by omega)

theorem mem_leave_channel_of_ne (s : List String) (c a : String) (h : a ≠ c)
    (ha : a ∈ s) : a ∈ leave_channel s c := by
  unfold leave_channel
  split
  · exact (List.mem_erase_of_ne h).mpr ha
  · exact ha

/-! ## Claims -/

/-- C7, counterexample: the spec claims the seen-message FIFO holds at least
1024 entries, but `GossipProtocol.SEEN_MESSAGES_MAX_SIZE` is 1000. -/
theorem C7_capacity_below_1024 : ¬ (1024 ≤ SEEN_MESSAGES_MAX_SIZE) := by decide

/-- C7 (amended): the in-memory deduplication cache is a bounded FIFO of
capacity exactly 1000 (not 1024): any sequence of insertions starting from
the empty cache keeps at most 1000 entries, and an insertion into a full
cache evicts the oldest entry. -/
theorem C7_seen_is_bounded_fifo_of_capacity_1000 :
    SEEN_MESSAGES_MAX_SIZE = 1000 ∧
    (∀ xs : List String,
      (xs.foldl (fun a x => seenAppend a SEEN_MESSAGES_MAX_SIZE x) []).length
        ≤ SEEN_MESSAGES_MAX_SIZE) ∧
    (∀ (s : List String) (x : String), s.length = SEEN_MESSAGES_MAX_SIZE →
      seenAppend s SEEN_MESSAGES_MAX_SIZE x = s.drop 1 ++ [x]) :=
  ⟨rfl,
   fun xs => seen_foldl_length_le xs [] _ (by simp),
   fun s x h => seenAppend_evict s _ x (by decide) h⟩

/-- Witness for C7 (amended): inserting into a full cache of 1000 entries
evicts exactly the oldest entry. -/
theorem C7_seen_is_bounded_fifo_of_capacity_1000_witness :
    seenAppend (List.replicate 1000 "a") SEEN_MESSAGES_MAX_SIZE "b"
      = (List.replicate 1000 "a").drop 1 ++ ["b"] :=
  C7_seen_is_bounded_fifo_of_capacity_1000.2.2 (List.replicate 1000 "a") "b"
    (by rw [List.length_replicate]; rfl)

/-- C8, counterexample: `TADNode.leave_channel` has no special case for
`#general`; calling it on the startup subscription set removes
`#general`. -/
theorem C8_leave_general_removes_it :
    "#general" ∉ leave_channel initial_subscribed "#general" := by decide

/-- C8 (amended): `#general` is in the subscription set at startup, but
`TADNode.leave_channel("#general")` does remove it from the shared
subscription set; only the TUI command layer (`TADTUIApp._cmd_leave`)
refuses to leave `#general`, so through that layer `#general` is never
removed. -/
theorem C8_general_at_startup_and_tui_guard :
    "#general" ∈ initial_subscribed ∧
    "#general" ∉ leave_channel initial_subscribed "#general" ∧
    (∀ (s : List String) (arg : String), "#general" ∈ s → "#general" ∈ cmd_leave s arg) := by
  refine ⟨by decide, by decide, ?_⟩
  intro s arg h
  simp only [cmd_leave]
  set c := if arg.startsWith "#" then arg else "#" ++ arg with hc
  by_cases hg : (c == "#general") = true
  · rw [if_pos hg]; exact h
  · rw [if_neg hg]
    refine mem_leave_channel_of_ne _ _ _ ?_ h
    intro heq
    exact hg (by simp [heq])

/-- Witness for C8 (amended): a TUI leave of `#general` on a live
subscription set keeps `#general` subscribed. -/
theorem C8_general_at_startup_and_tui_guard_witness :
    "#general" ∈ cmd_leave ["#general", "#dev"] "#general" :=
  C8_general_at_startup_and_tui_guard.2.2 ["#general", "#dev"] "#general" (by decide)

/-- C5: `TADNode.invite_peer_to_channel` refuses whenever the channel does
not exist or its recorded `owner_node_id` differs from the calling node:
the function returns before wrapping any key and before broadcasting, so no
INVITE message is emitted, no channel key is wrapped or transmitted, and the
node state is untouched (the only effect of the function on any path is the
final broadcast). -/
theorem C5_invite_refuses_non_owner (channels : List (String × ChannelInfo))
    (channel_keys : List (String × String))
    (selfId channel_id target_id target_pub : String)
    (h : ∀ info, alookup channels channel_id = some info →
      info.owner_node_id ≠ some selfId) :
    invite_peer_to_channel channels channel_keys selfId channel_id target_id target_pub
      = none := by
  simp only [invite_peer_to_channel]
  cases hc : alookup channels channel_id with
  | none => rfl
  | some info =>
    have hne := h info hc
    simp [hne]

/-- Witness for C5: node B, a member but not the owner of `#secret`, fails
to invite node C; a missing channel refuses likewise. -/
theorem C5_invite_refuses_non_owner_witness :
    invite_peer_to_channel [("#secret", ⟨"#secret", "private", some "nodeA"⟩)]
      [("#secret", "key1")] "nodeB" "#secret" "nodeC" "pubC" = none :=
  C5_invite_refuses_non_owner _ _ _ _ _ _ (by
    intro info hinfo
    simp [alookup] at hinfo
    rw [← hinfo]
    decide)

/-- C10: `TADNode._handle_invite` begins by reading
`self.identity.encryption_private_key`, an attribute that
`Identity.__init__` never assigns, so every call raises `AttributeError`
before any state change (first conjunct: the handler yields `none` for every
identity, sealed-box opener, node state and invite payload); the exception
propagates out of `_on_gossip_message_received` into the `try` guard around
the callback in `GossipProtocol._handle_chat_message` and is swallowed there
(second conjunct: the full callback on an INVITE addressed to this node ends
in the exception marker, so no channel key is stored, no channel or
membership row is written, and no subscription is added). -/
theorem C10_handle_invite_always_raises :
    (∀ (ident : Identity) (selfId : String) (sbOpen : String → String → Option String)
       (st : NodeState) (inv : Dict),
       handle_invite ident selfId sbOpen st inv = none) ∧
    (∀ (decrypt : String → Val → Val → Option String)
       (sbOpen : String → String → Option String) (ident : Identity) (selfId : String)
       (st : NodeState) (db : List MessageRow) (m : Envelope) (c : Dict),
       dget m.payload "content" = Val.vDict c →
       isStrVal (dget c "type") "INVITE" = true →
       isStrVal (dget c "target_node_id") selfId = true →
       on_gossip_message_received decrypt sbOpen ident selfId st db m = none) := by
  constructor
  · intro ident selfId sbOpen st inv
    rfl
  · intro decrypt sbOpen ident selfId st db m c h1 h2 h3
    simp only [on_gossip_message_received, h1, h2, h3, if_true]
    rfl

/-- A concrete identity for the C10 witness. -/
def identW : Identity := ⟨"alice", "sk-hex", "vk-hex", "me"⟩

/-- A concrete INVITE envelope addressed to node `me` for the C10 witness. -/
def inviteEnvelopeW : Envelope :=
  { msg_id := "m500"
    sender_id := "nodeA"
    signature := "sig5"
    payload :=
      [("channel_id", Val.vStr "#general"), ("type", Val.vStr "chat_message"),
       ("content", Val.vDict
         [("type", Val.vStr "INVITE"), ("channel_id", Val.vStr "#secret"),
          ("channel_name", Val.vStr "#secret"), ("channel_type", Val.vStr "private"),
          ("target_node_id", Val.vStr "me"), ("encrypted_key", Val.vStr "sealed-hex")]),
       ("timestamp", Val.vStr "t5")]
    ttl := some 3 }

/-- Witness for C10: on a concrete INVITE addressed to this node the invite
handler raises (the callback run ends in the swallowed-exception marker). -/
theorem C10_handle_invite_always_raises_witness :
    on_gossip_message_received (fun _ _ _ => none) (fun _ _ => none) identW "me"
      ⟨[], [], [], ["#general"]⟩ [] inviteEnvelopeW = none :=
  C10_handle_invite_always_raises.2 (fun _ _ _ => none) (fun _ _ => none) identW "me"
    ⟨[], [], [], ["#general"]⟩ [] inviteEnvelopeW
    [("type", Val.vStr "INVITE"), ("channel_id", Val.vStr "#secret"),
     ("channel_name", Val.vStr "#secret"), ("channel_type", Val.vStr "private"),
     ("target_node_id", Val.vStr "me"), ("encrypted_key", Val.vStr "sealed-hex")]
    rfl rfl rfl

/-- A chat envelope exactly as another node builds it in
`broadcast_message`: the `ttl` sits at envelope level
(`signed_message["ttl"] = INITIAL_TTL`), never inside the signed payload. -/
def chatEnvelopeTtl3 : Envelope :=
  { msg_id := "m100"
    sender_id := "sender1"
    signature := "sig1"
    payload :=
      [("channel_id", Val.vStr "#general"), ("type", Val.vStr "chat_message"),
       ("content", Val.vStr "hello"), ("timestamp", Val.vStr "2026-01-01T00:00:00")]
    ttl := some 3 }

/-- C1, failing run: an accepted chat envelope with envelope-level
`ttl = 3 > 0` and two connected peers is forwarded to **no** peer.  The
hop gate in `_handle_chat_message` reads the envelope-level
`message.get("ttl", 0) = 3` and calls `forward_message`, but
`forward_message` reads `payload.get("ttl", 0) = 0` and stops at
`new_ttl = -1 <= 0`, so the claimed per-peer copies with
`ttl_out = ttl_in - 1 = 2` are never sent. -/
theorem C1_positive_ttl_message_not_forwarded :
    handle_message ["#general"] [] true chatEnvelopeTtl3 ["peerA", "peerB"]
      = some (Dispo.chat ⟨["m100"], true, []⟩) := rfl

/-- A chat envelope whose signed payload carries a `ttl` key, the only shape
`forward_message` ever forwards. -/
def chatEnvelopePayloadTtl3 : Envelope :=
  { msg_id := "m200"
    sender_id := "sender2"
    signature := "sig2"
    payload :=
      [("channel_id", Val.vStr "#general"), ("type", Val.vStr "chat_message"),
       ("content", Val.vStr "hi"), ("timestamp", Val.vStr "t2"), ("ttl", Val.vInt 3)]
    ttl := some 3 }

/-- C2, failing run: when `forward_message` does forward (payload-level
`ttl = 3`), the copy it sends has the `ttl` **inside the signed payload**
rewritten from 3 to 2 — a field inside the signed payload region is
modified — while the envelope-level `ttl` is copied unchanged (3), the
opposite of the claimed frame condition. -/
theorem C2_forwarding_mutates_signed_payload :
    forward_message chatEnvelopePayloadTtl3 ["peerA"]
      = some [("peerA",
          { chatEnvelopePayloadTtl3 with
            payload := dset chatEnvelopePayloadTtl3.payload "ttl" (Val.vInt 2) })] ∧
    dget (dset chatEnvelopePayloadTtl3.payload "ttl" (Val.vInt 2)) "ttl" = Val.vInt 2 ∧
    dget chatEnvelopePayloadTtl3.payload "ttl" = Val.vInt 3 ∧
    (Val.vInt 2 ≠ Val.vInt 3) ∧
    ({ chatEnvelopePayloadTtl3 with
       payload := dset chatEnvelopePayloadTtl3.payload "ttl" (Val.vInt 2) } : Envelope).ttl
      = chatEnvelopePayloadTtl3.ttl :=
  ⟨rfl, rfl, rfl, by intro h; injection h with h2; exact absurd h2 (by decide), rfl⟩

/-- A stored private-channel message row (ciphertext content, encrypted
flag set) used to exhibit the export/import failure. -/
def storedPrivateRow : MessageRow :=
  { msg_id := "m300"
    channel_id := Val.vStr "#secret"
    sender_id := "sender3"
    timestamp := Val.vStr "t3"
    content := Val.vStr "deadbeef"
    signature := "sig3"
    is_encrypted := true }

/-- C6, failing run: the export SELECT names a `nonce` column that the
`messages` table does not have, so `export_messages_to_json` hits
`sqlite3.OperationalError`, returns `[]`, and re-importing that export into
a fresh empty store leaves it empty: the projection onto the eight spec
columns differs from the original store already at one message. -/
theorem C6_export_import_not_roundtrip :
    export_messages_to_json [storedPrivateRow] = [] ∧
    import_messages_from_json [] (export_messages_to_json [storedPrivateRow]) = [] ∧
    [storedPrivateRow].map rowProjection ≠ ([] : List MessageRow).map rowProjection := by
  refine ⟨rfl, rfl, ?_⟩
  simp

/-- A received private-channel chat envelope: ciphertext in `content`,
`nonce` and `is_encrypted` inside the signed payload, as built by the
sending node in `TADNode.broadcast_message`. -/
def privChatEnvelope : Envelope :=
  { msg_id := "m400"
    sender_id := "sender4"
    signature := "sig4"
    payload :=
      [("channel_id", Val.vStr "#secret"), ("type", Val.vStr "chat_message"),
       ("content", Val.vStr "4aead7c1"), ("timestamp", Val.vStr "t4"),
       ("nonce", Val.vStr "0badc0de"), ("is_encrypted", Val.vBool true)]
    ttl := some 3 }

/-- Node state of a member of `#secret` holding its channel key. -/
def memberStateSecret : NodeState :=
  ⟨[("#secret", "KEY")],
   [("#secret", ⟨"#secret", "private", some "owner"⟩)],
   [("#secret", "me")],
   ["#general", "#secret"]⟩

/-- The payload of `privChatEnvelope` after the in-place mutation performed
through the shallow `message.copy()` in `_on_gossip_message_received`. -/
def privPayloadMutated : Dict :=
  dset (dset privChatEnvelope.payload "content" (Val.vStr "attack at dawn"))
    "is_encrypted" (Val.vBool true)

/-- The row `store_message` persists for `privChatEnvelope`. -/
def privStoredRow : MessageRow :=
  { msg_id := "m400"
    channel_id := Val.vStr "#secret"
    sender_id := "sender4"
    timestamp := Val.vStr "t4"
    content := Val.vStr "attack at dawn"
    signature := "sig4"
    is_encrypted := false }

/-- C4, failing run: a private-channel message whose ciphertext decrypts to
`"attack at dawn"` is persisted with the **plaintext** in the `content`
column (the shallow `message.copy()` aliases the payload, so the decrypted
content overwrites the ciphertext before `store_message(message)` runs) and
with `is_encrypted = false` (the INSERT never sets that column, leaving the
schema default 0); the `messages` table has no nonce column at all, so the
stored row also carries no nonce. -/
theorem C4_private_message_stored_as_plaintext :
    on_gossip_message_received (fun _ _ _ => some "attack at dawn") (fun _ _ => none)
      identW "me" memberStateSecret [] privChatEnvelope
      = some ⟨memberStateSecret, [privStoredRow], some privPayloadMutated⟩ ∧
    privStoredRow.content = Val.vStr "attack at dawn" ∧
    dget privChatEnvelope.payload "content" = Val.vStr "4aead7c1" ∧
    privStoredRow.is_encrypted = false :=
  ⟨rfl, rfl, rfl, rfl⟩

theorem forward_message_isSome (m : Envelope) (peers : List String) (pt : Int)
    (hpt : payloadTtl m.payload = some pt) :
    ∃ fs, forward_message m peers = some fs := by
  simp only [forward_message, hpt]
  split
  · exact ⟨[], rfl⟩
  · exact ⟨_, rfl⟩

theorem handle_chat_message_new (seen : List String) (m : Envelope)
    (peers : List String) (hnew : seen.contains m.msg_id = false) (pt : Int)
    (hpt : payloadTtl m.payload = some pt) :
    ∃ r : ChatResult, handle_chat_message seen m peers = some r ∧
      r.seen = seenAppend seen SEEN_MESSAGES_MAX_SIZE m.msg_id ∧
      r.callbackInvoked = true := by
  obtain ⟨fs, hfs⟩ := forward_message_isSome m peers pt hpt
  simp only [handle_chat_message, hnew, Bool.false_eq_true, if_false]
  split
  · exact ⟨⟨_, true, fs⟩, by rw [hfs]; rfl, rfl, rfl⟩
  · exact ⟨⟨_, true, []⟩, rfl, rfl, rfl⟩

/-- C3: a verified envelope whose payload `channel_id` is a non-empty string
outside the subscription set is dropped as not subscribed — before the seen
cache is touched, before the callback runs and before any forwarding (the
filter sits ahead of the dedup and dispatch steps, so the drop leaves no
trace).  Consequently, after the node joins that channel
(`join_channel`), a second arrival of the very same envelope is processed
normally: it enters the seen cache and the callback is invoked. -/
theorem C3_unsubscribed_channel_dropped_then_reprocessed
    (subscribed seen : List String) (m : Envelope) (peers : List String) (c : String)
    (hchan : dget m.payload "channel_id" = Val.vStr c)
    (hc : c ≠ "")
    (hnotsub : subscribed.contains c = false)
    (htype : dget m.payload "type" = Val.vStr "chat_message")
    (hid : m.msg_id ≠ "") :
    handle_message subscribed seen true m peers = some Dispo.dropNotSubscribed ∧
    (seen.contains m.msg_id = false → ∀ pt, payloadTtl m.payload = some pt →
      ∃ r : ChatResult,
        handle_message (join_channel subscribed c) seen true m peers
          = some (Dispo.chat r) ∧
        r.seen = seenAppend seen SEEN_MESSAGES_MAX_SIZE m.msg_id ∧
        r.callbackInvoked = true) := by
  have hn : c ∉ subscribed := by simpa using hnotsub
  constructor
  · simp [handle_message, hchan, htype, truthy, valInStrSet, isStrVal, hid, hc, hn]
  · intro hnew pt hpt
    obtain ⟨r, hr, hseen, hcb⟩ := handle_chat_message_new seen m peers hnew pt hpt
    refine ⟨r, ?_, hseen, hcb⟩
    have hmem : c ∈ join_channel subscribed c := by simp [join_channel, hn]
    simp [handle_message, hchan, htype, truthy, valInStrSet, isStrVal, hid, hc, hmem, hr]

/-- A chat envelope on channel `#dev` for the C3 witness. -/
def devChatEnvelope : Envelope :=
  { msg_id := "m600"
    sender_id := "sender6"
    signature := "sig6"
    payload :=
      [("channel_id", Val.vStr "#dev"), ("type", Val.vStr "chat_message"),
       ("content", Val.vStr "ping"), ("timestamp", Val.vStr "t6")]
    ttl := some 3 }

/-- Witness for C3: a node subscribed only to `#general` drops a `#dev`
message completely, and after joining `#dev` the same envelope is accepted
into the seen cache and surfaced. -/
theorem C3_unsubscribed_channel_dropped_then_reprocessed_witness :
    handle_message ["#general"] [] true devChatEnvelope ["peerA"]
      = some Dispo.dropNotSubscribed ∧
    (([] : List String).contains devChatEnvelope.msg_id = false →
      ∀ pt, payloadTtl devChatEnvelope.payload = some pt →
      ∃ r : ChatResult,
        handle_message (join_channel ["#general"] "#dev") [] true devChatEnvelope ["peerA"]
          = some (Dispo.chat r) ∧
        r.seen = seenAppend [] SEEN_MESSAGES_MAX_SIZE devChatEnvelope.msg_id ∧
        r.callbackInvoked = true) :=
  C3_unsubscribed_channel_dropped_then_reprocessed ["#general"] [] devChatEnvelope
    ["peerA"] "#dev" rfl (by decide) rfl rfl (by decide)

/-- C9: a verified chat envelope whose payload has no `channel_id` key (or
an empty-string one) skips the subscription filter entirely, because the
guard `if channel_id and channel_id not in subscribed_channels` is false for
a falsy `channel_id`: for every subscription set the handler result equals
the plain chat dispatch (first conjunct, with the right-hand side not
depending on `subscribed` at all), and when the envelope is new it enters
the seen cache and reaches the callback (second conjunct). -/
theorem C9_falsy_channel_bypasses_filter
    (subscribed seen : List String) (m : Envelope) (peers : List String)
    (hchan : dget m.payload "channel_id" = Val.vNone ∨
      dget m.payload "channel_id" = Val.vStr "")
    (htype : dget m.payload "type" = Val.vStr "chat_message")
    (hid : m.msg_id ≠ "") :
    handle_message subscribed seen true m peers
      = (handle_chat_message seen m peers).map Dispo.chat ∧
    (seen.contains m.msg_id = false → ∀ pt, payloadTtl m.payload = some pt →
      ∃ r : ChatResult, handle_chat_message seen m peers = some r ∧
        r.seen = seenAppend seen SEEN_MESSAGES_MAX_SIZE m.msg_id ∧
        r.callbackInvoked = true) := by
  refine ⟨?_, fun hnew pt hpt => handle_chat_message_new seen m peers hnew pt hpt⟩
  cases hchan with
  | inl h => simp [handle_message, h, htype, truthy, isStrVal, hid]
  | inr h => simp [handle_message, h, htype, truthy, isStrVal, hid]

/-- A chat envelope whose payload lacks a `channel_id` key, for the C9
witness. -/
def noChannelEnvelope : Envelope :=
  { msg_id := "m700"
    sender_id := "sender7"
    signature := "sig7"
    payload :=
      [("type", Val.vStr "chat_message"), ("content", Val.vStr "rogue"),
       ("timestamp", Val.vStr "t7")]
    ttl := some 3 }

/-- Witness for C9: with an empty subscription set, a channel-less chat
envelope is still dispatched, enters the seen cache and is surfaced. -/
theorem C9_falsy_channel_bypasses_filter_witness :
    handle_message [] [] true noChannelEnvelope ["peerA"]
      = (handle_chat_message [] noChannelEnvelope ["peerA"]).map Dispo.chat ∧
    (([] : List String).contains noChannelEnvelope.msg_id = false →
      ∀ pt, payloadTtl noChannelEnvelope.payload = some pt →
      ∃ r : ChatResult, handle_chat_message [] noChannelEnvelope ["peerA"] = some r ∧
        r.seen = seenAppend [] SEEN_MESSAGES_MAX_SIZE noChannelEnvelope.msg_id ∧
        r.callbackInvoked = true) :=
  C9_falsy_channel_bypasses_filter [] [] noChannelEnvelope ["peerA"]
    (Or.inl rfl) rfl (by decide)
